import Mathlib

/-!
Shallow embedding of the redux store engine (src/createStore.ts,
src/applyMiddleware.ts, compose.ts) and proofs of the specification claims.

Modelling conventions:
* JavaScript reference identity of the two listener arrays
  (`nextListeners === currentListeners`) is tracked by the boolean field
  `shared`; array contents are Lean lists of listener identities (`Nat`),
  since listeners are identified by reference in the source
  (`indexOf`/`splice`).
* A reducer is a function `Option S → JSAction A → Except RError (Option S)`;
  `Option S` models a possibly-`undefined` state (`none` is the
  uninitialized sentinel), and the `Except` layer models a reducer that
  throws.  Pure reducers are injected with `pureReducer`.
* Listener callbacks may call `subscribe`/`unsubscribe` while they are being
  notified; their behaviour is supplied to `dispatch` as an environment
  `β : Nat → List LAct` giving the subscription actions each listener
  performs when invoked.
* The random suffixes of `ActionTypes.INIT` / `ActionTypes.REPLACE`
  (produced by `Math.random` in utils/actionTypes.ts) are dropped: the model
  is deterministic and no claim depends on the suffix.
* JavaScript reference equality of states and actions is rendered as value
  equality, the strongest available notion in a pure embedding.
-/

namespace Redux

/-- Error kinds thrown by the engine, following the spec's taxonomy and the
`throw new Error(...)` sites in createStore.ts; `userError` stands for an
arbitrary exception raised by user code (a throwing reducer). -/
inductive RError where
  | multipleEnhancers
  | enhancerNotFunction (kind : String)
  | reducerNotFunction (kind : String)
  | invalidActionShape (kind : String)
  | missingActionType
  | reentrantDispatch
  | illegalReentrantRead
  | reentrantSubscribe
  | reentrantUnsubscribe
  | nextReducerNotFunction (kind : String)
  | userError (msg : String)
deriving DecidableEq, Repr

/-- A JavaScript value in the `dispatch` argument position.
`obj ty payload` is a plain object (so `isPlainObject` returns `true`) whose
`type` field is `ty` (`none` models an `undefined` type field) and whose
remaining fields are summarised by `payload`.  `nonPlain kind` is any value
for which `isPlainObject` returns `false` (function, array, primitive, class
instance); `kind` is what `kindOf` would report for it. -/
inductive JSAction (A : Type) where
  | obj (ty : Option String) (payload : Option A)
  | nonPlain (kind : String)
deriving DecidableEq, Repr

/-- The reducer contract: `(state, action) → state`, where the state may be
the uninitialized sentinel (`none`) and the reducer may throw. -/
def Reducer (S A : Type) : Type :=
  Option S → JSAction A → Except RError (Option S)

/-- Injection of a pure, never-throwing reducer. -/
def pureReducer {S A : Type} (R : Option S → JSAction A → Option S) : Reducer S A :=
  fun s a => .ok (R s a)

/-- The mutable cells closed over by the functions of createStore.ts:
`currentReducer`, `currentState`, `currentListeners`, `nextListeners`,
`isDispatching`.  `shared` records whether `nextListeners` and
`currentListeners` are the same array (reference equality), the condition
tested by `ensureCanMutateNextListeners`. -/
structure Engine (S A : Type) where
  currentReducer : Reducer S A
  currentState : Option S
  currentListeners : Option (List Nat)
  nextListeners : List Nat
  shared : Bool
  isDispatching : Bool

/-- `ensureCanMutateNextListeners`: if `nextListeners === currentListeners`,
replace `nextListeners` with a shallow copy (same contents, distinct array:
`shared` becomes `false`). -/
def ensureCanMutateNextListeners {S A : Type} (e : Engine S A) : Engine S A :=
  if e.shared then { e with shared := false } else e

/-- `getState`: throws while a dispatch is in progress, otherwise returns the
current state reference directly. -/
def getState {S A : Type} (e : Engine S A) : Except RError (Option S) :=
  if e.isDispatching then .error .illegalReentrantRead
  else .ok e.currentState

/-- `subscribe(listener)`: rejects registration while dispatching, otherwise
pushes the listener onto the staging list after copy-on-write.  Listener
values are modelled as identities (`Nat`), all of which denote functions, so
the preceding `typeof listener !== 'function'` guard is vacuous here. -/
def subscribe {S A : Type} (id : Nat) (e : Engine S A) : Except RError (Engine S A) :=
  if e.isDispatching then .error .reentrantSubscribe
  else
    let e1 := ensureCanMutateNextListeners e
    .ok { e1 with nextListeners := e1.nextListeners ++ [id] }

/-- JavaScript `Array.prototype.indexOf`: first index of `x`, `-1` if absent. -/
def jsIndexOf (l : List Nat) (x : Nat) : Int :=
  if l.indexOf x = l.length then -1 else (l.indexOf x : Int)

/-- JavaScript `splice(start, 1)`: remove one element at `start`, where a
negative `start` counts from the end (clamped at `0`). -/
def spliceRemoveOne (l : List Nat) (start : Int) : List Nat :=
  let s : Nat := if start < 0 then ((l.length : Int) + start).toNat
                 else min start.toNat l.length
  l.take s ++ l.drop (s + 1)

/-- The `unsubscribe` closure returned by `subscribe`.  `isSubscribed` is the
closure's flag: when already `false` the call is a no-op; otherwise it throws
mid-dispatch, else clears the flag, removes the listener from the staging
list (copy-on-write, `indexOf` + `splice`) and nulls `currentListeners`. -/
def unsubscribe {S A : Type} (isSubscribed : Bool) (id : Nat) (e : Engine S A) :
    Except RError (Bool × Engine S A) :=
  if !isSubscribed then .ok (false, e)
  else if e.isDispatching then .error .reentrantUnsubscribe
  else
    let e1 := ensureCanMutateNextListeners e
    let idx := jsIndexOf e1.nextListeners id
    .ok (false, { e1 with nextListeners := spliceRemoveOne e1.nextListeners idx,
                          currentListeners := none,
                          shared := false })

/-- A subscription-list action a listener callback may perform while being
notified: subscribe a new listener, or invoke (for the first time) the
unsubscribe closure of a listener. -/
inductive LAct where
  | sub (id : Nat)
  | unsub (id : Nat)
deriving DecidableEq, Repr

/-- Run one subscription action through the engine's own `subscribe` /
`unsubscribe` entry points (during notification `isDispatching` is already
`false`, so the error branches are unreachable; they keep the engine
unchanged). -/
def applyLAct {S A : Type} (act : LAct) (e : Engine S A) : Engine S A :=
  match act with
  | .sub id =>
    match subscribe id e with
    | .ok e1 => e1
    | .error _ => e
  | .unsub id =>
    match unsubscribe true id e with
    | .ok r => r.2
    | .error _ => e

/-- Run a listener callback: the sequence of subscription actions it
performs, in order. -/
def applyLActs {S A : Type} (acts : List LAct) (e : Engine S A) : Engine S A :=
  acts.foldl (fun acc a => applyLAct a acc) e

/-- The notification loop of `dispatch`: iterate over the snapshot array
captured in the local `listeners`, invoking each listener exactly once in
order, and record the identities invoked.  Mutations performed by the
callbacks act on the engine, never on the snapshot list being iterated
(faithful to the source, where every mutation path first copies the array
via `ensureCanMutateNextListeners`). -/
def notify {S A : Type} (β : Nat → List LAct) (ids : List Nat) (e : Engine S A) :
    Engine S A × List Nat :=
  match ids with
  | [] => (e, [])
  | i :: rest =>
    let e1 := applyLActs (β i) e
    let r := notify β rest e1
    (r.1, i :: r.2)

/-- Outcome of a `dispatch` call: the value returned or exception thrown, the
engine's cells afterwards (mutations persist even when an exception
propagates), and the listeners invoked, in order. -/
structure DispatchResult (S A : Type) where
  result : Except RError (JSAction A)
  engine : Engine S A
  invoked : List Nat

/-- `dispatch(action)` from createStore.ts: reject non-plain-object actions,
then actions with an `undefined` `type`, then reentrant calls; run the
reducer with `isDispatching` set (the `finally` block resets it whether or
not the reducer throws; on a throw the exception propagates, the reducer's
return value is never assigned and no listener runs); on success assign the
new state, re-sync `currentListeners = nextListeners` and notify every
listener of that snapshot. -/
def dispatch {S A : Type} (β : Nat → List LAct) (e : Engine S A)
    (action : JSAction A) : DispatchResult S A :=
  match action with
  | .nonPlain kind => ⟨.error (.invalidActionShape kind), e, []⟩
  | .obj none _ => ⟨.error .missingActionType, e, []⟩
  | .obj (some ty) payload =>
    if e.isDispatching then ⟨.error .reentrantDispatch, e, []⟩
    else
      match e.currentReducer e.currentState (.obj (some ty) payload) with
      | .error err => ⟨.error err, { e with isDispatching := false }, []⟩
      | .ok s1 =>
        let snapshot := e.nextListeners
        let e1 : Engine S A :=
          { e with currentState := s1, isDispatching := false,
                   currentListeners := some snapshot, shared := true }
        let r := notify β snapshot e1
        ⟨.ok (.obj (some ty) payload), r.1, r.2⟩

/-- The synthetic action type dispatched once at construction
(utils/actionTypes.ts; random suffix dropped, see module comment). -/
def ActionTypes.INIT : String := "@@redux/INIT"

/-- The synthetic action type dispatched by `replaceReducer`
(utils/actionTypes.ts; random suffix dropped, see module comment). -/
def ActionTypes.REPLACE : String := "@@redux/REPLACE"

/-- The action `{ type: ActionTypes.INIT }`. -/
def initAction (A : Type) : JSAction A := .obj (some ActionTypes.INIT) none

/-- The action `{ type: ActionTypes.REPLACE }`. -/
def replaceAction (A : Type) : JSAction A := .obj (some ActionTypes.REPLACE) none

/-- A JavaScript argument slot expected to hold a function of type `T`:
`undefined`, an actual function, or a non-function value whose `kindOf`
description is `kind`. -/
inductive JSArg (T : Type) where
  | undef
  | fn (f : T)
  | nonFn (kind : String)

/-- `replaceReducer(nextReducer)`: validate callability, swap
`currentReducer`, then dispatch `{ type: ActionTypes.REPLACE }`.  The swap
persists even if that dispatch throws.  Returns (outcome, engine cells
afterwards, listeners notified). -/
def replaceReducer {S A : Type} (β : Nat → List LAct) (e : Engine S A)
    (nextReducerArg : JSArg (Reducer S A)) :
    Except RError Unit × Engine S A × List Nat :=
  match nextReducerArg with
  | .fn R2 =>
    let d := dispatch β { e with currentReducer := R2 } (replaceAction A)
    (d.result.map (fun _ => ()), d.engine, d.invoked)
  | .undef => (.error (.nextReducerNotFunction "undefined"), e, [])
  | .nonFn k => (.error (.nextReducerNotFunction k), e, [])

/-- The no-enhancer tail of `createStore`: validate that the reducer is
callable, initialise the cells (`currentListeners` and `nextListeners` start
as the same empty array), dispatch `{ type: ActionTypes.INIT }` and hand the
store to the caller.  No listener exists yet, so the notification
environment is empty. -/
def createStoreBase {S A : Type} (reducerArg : JSArg (Reducer S A))
    (preloaded : Option S) : Except RError (Engine S A) :=
  match reducerArg with
  | .undef => .error (.reducerNotFunction "undefined")
  | .nonFn k => .error (.reducerNotFunction k)
  | .fn R =>
    let e0 : Engine S A :=
      { currentReducer := R, currentState := preloaded,
        currentListeners := some [], nextListeners := [],
        shared := true, isDispatching := false }
    let d := dispatch (fun _ => []) e0 (initAction A)
    match d.result with
    | .ok _ => .ok d.engine
    | .error err => .error err

/-- The store-constructor shape an enhancer receives and returns: the
two-argument call `(reducer, preloadedState)` made by enhancers such as
`applyMiddleware`. -/
def BaseCreator (S A : Type) : Type :=
  JSArg (Reducer S A) → Option S → Except RError (Engine S A)

/-- A store enhancer: a function from store constructor to store
constructor. -/
def Enhancer (S A : Type) : Type := BaseCreator S A → BaseCreator S A

/-- The `preloadedState` argument slot: `undefined`, a state value, or a
callable (which the shape-sniffing step will treat as the enhancer). -/
inductive PreloadedArg (S A : Type) where
  | undef
  | state (s : S)
  | preFn (e : Enhancer S A)

/-- Lift an optional state value into the `preloadedState` slot. -/
def ofOptionPre {S A : Type} : Option S → PreloadedArg S A
  | none => .undef
  | some s => .state s

/-- The state value a `preloadedState` slot denotes once sniffing is done
(`undefined` is the uninitialized sentinel). -/
def preToOption {S A : Type} : PreloadedArg S A → Option S
  | .undef => none
  | .state s => some s
  | .preFn _ => none

/-- Whether `typeof slot === 'function'` for the preloadedState slot. -/
def PreloadedArg.isFn {S A : Type} : PreloadedArg S A → Bool
  | .preFn _ => true
  | _ => false

/-- Whether `typeof slot === 'function'` for a function-argument slot. -/
def JSArg.isFn {T : Type} : JSArg T → Bool
  | .fn _ => true
  | _ => false

/-- `createStore(reducer, preloadedState?, enhancer?)` from createStore.ts:
reject two enhancer-shaped arguments; if the `preloadedState` slot holds a
callable and `enhancer` is `undefined`, treat that callable as the enhancer
with `preloadedState` absent; with an enhancer present, return exactly
`enhancer(createStore)(reducer, preloadedState)` — the constructor handed to
the enhancer is the two-argument restriction of `createStore` itself, which
coincides with `createStoreBase` (`createStore r p .undef false =
createStoreBase r p`, proved below); otherwise take the base path.
`arg3IsFunction` models `typeof arguments[3] === 'function'`. -/
def createStore {S A : Type} (reducerArg : JSArg (Reducer S A))
    (preArg : PreloadedArg S A) (enhArg : JSArg (Enhancer S A))
    (arg3IsFunction : Bool) : Except RError (Engine S A) :=
  if (preArg.isFn && enhArg.isFn) || (enhArg.isFn && arg3IsFunction) then
    .error .multipleEnhancers
  else
    let sniffed : PreloadedArg S A × JSArg (Enhancer S A) :=
      match preArg, enhArg with
      | .preFn e, .undef => (.undef, .fn e)
      | p, en => (p, en)
    match sniffed.2 with
    | .nonFn k => .error (.enhancerNotFunction k)
    | .fn enh => enh (fun r p => createStoreBase r p) reducerArg (preToOption sniffed.1)
    | .undef => createStoreBase reducerArg (preToOption sniffed.1)

/-- `compose` from compose.ts: no functions gives the identity, one function
is returned as-is, otherwise `funcs.reduce((a, b) => (...args) => a(b(...args)))`
(right-to-left composition).  Specialised to endofunctions, the shape used
by `applyMiddleware`. -/
def compose {D : Type} : List (D → D) → D → D
  | [] => fun d => d
  | f :: rest => rest.foldl (fun a b => fun x => a (b x)) f

/-- The dispatch built by `applyMiddleware` (applyMiddleware.ts lines 80-81):
each interceptor is instantiated against the middleware API, and the
resulting wrappers are composed right-to-left around the base dispatch:
`compose(...chain)(store.dispatch)`.  The construction protocol around these
two lines (underlying store built first, throwing placeholder dispatch
during setup, late rebinding of `api.dispatch` to the final composed
dispatch, `{...store, dispatch}` result) does not affect which wrapper calls
which, which is what the ordering claim is about. -/
def applyMiddlewareDispatch {Api D : Type} (api : Api)
    (middlewares : List (Api → D → D)) (baseDispatch : D) : D :=
  compose (middlewares.map (fun m => m api)) baseDispatch

/-- A dispatch function instrumented to return the trace of pipeline stages
it visits. -/
def TDispatch (A : Type) : Type := A → List String

/-- A base dispatch that reports itself as the innermost stage. -/
def traceBase {A : Type} : TDispatch A := fun _ => ["base"]

/-- An interceptor that records `tag` and forwards to the next stage. -/
def traceMiddleware {Api A : Type} (tag : String) :
    Api → TDispatch A → TDispatch A :=
  fun _ next a => tag :: next a

/-- Pure effect of one subscription action on the staging listener list,
mirroring `subscribe` (push) and the unsubscribe closure
(`indexOf` + `splice`). -/
def applyActL (act : LAct) (l : List Nat) : List Nat :=
  match act with
  | .sub id => l ++ [id]
  | .unsub id => spliceRemoveOne l (jsIndexOf l id)

/-- Pure effect of one listener callback's actions on the staging list. -/
def applyActsL (acts : List LAct) (l : List Nat) : List Nat :=
  acts.foldl (fun acc a => applyActL a acc) l

/-- Pure effect of a whole notification pass over snapshot `ids` on the
staging list. -/
def notifyEffect (β : Nat → List LAct) (ids : List Nat) (l : List Nat) : List Nat :=
  ids.foldl (fun acc i => applyActsL (β i) acc) l

/-- A reducer that, while executing, calls `dispatch` on the same store — the
store's cells as the reducer observes them have `isDispatching = true` — and
rethrows whatever that inner call throws (returning the state unchanged if
the inner call were to succeed). -/
def innerDispatchReducer {S A : Type} (β : Nat → List LAct) (e : Engine S A)
    (innerAction : JSAction A) : Reducer S A :=
  fun s _ =>
    match (dispatch β { e with isDispatching := true } innerAction).result with
    | .error er => .error er
    | .ok _ => .ok s

/-- Concrete engine builder for witnesses: fresh listener registry contents
`ls` shared between current and next, not dispatching. -/
def mkEngine (R : Option Nat → JSAction Nat → Option Nat) (s : Option Nat)
    (ls : List Nat) : Engine Nat Nat :=
  { currentReducer := pureReducer R, currentState := s,
    currentListeners := some ls, nextListeners := ls,
    shared := true, isDispatching := false }

/-- Witness fixture: a reducer throwing exactly on the action type "boom". -/
def throwingReducer : Reducer Nat Nat :=
  fun s a =>
    match a with
    | .obj (some "boom") _ => .error (.userError "reducer threw")
    | _ => .ok s

/-- Witness fixture: behaviours for the snapshot-isolation scenario —
listener 0 subscribes the new listener 5, listener 1 unsubscribes
listener 2, listener 2 does nothing. -/
def snapshotBeta : Nat → List LAct :=
  fun i => if i = 0 then [.sub 5] else if i = 1 then [.unsub 2] else []

/-- Silent behaviour environment for witnesses. -/
def noBeta : Nat → List LAct := fun _ => []

/-- Witness fixture: a store holding `some 1` whose reducer is
`throwingReducer` and which has one listener. -/
def throwEngine : Engine Nat Nat :=
  { currentReducer := throwingReducer, currentState := some 1,
    currentListeners := some [4], nextListeners := [4],
    shared := true, isDispatching := false }

/-- Witness fixture: an idle store with a no-op reducer and no listeners. -/
def c4Base : Engine Nat Nat := mkEngine (fun s _ => s) (some 0) []

/-- Witness fixture: `c4Base` as its reducer observes it mid-dispatch. -/
def c4During : Engine Nat Nat :=
  { c4Base with isDispatching := true, currentReducer := pureReducer (fun s _ => s) }

/-- Witness fixture: `c4Base` with a reducer that dispatches reentrantly. -/
def c4Outer : Engine Nat Nat :=
  { c4Base with currentReducer := innerDispatchReducer noBeta c4Base (.obj (some "inner") none) }

/-- Witness fixture: a store observed while a dispatch is in progress. -/
def dispatchingEngine : Engine Nat Nat :=
  { mkEngine (fun s _ => s) none [8] with isDispatching := true }

/-- The engine produced by the base construction path for a pure reducer and
no preloaded state: fresh shared empty listener registry, state populated by
the initialization dispatch. -/
def initEngine {S A : Type} (R : Option S → JSAction A → Option S) : Engine S A :=
  { currentReducer := pureReducer R, currentState := R none (initAction A),
    currentListeners := some [], nextListeners := [],
    shared := true, isDispatching := false }

/-- A subscription action performed by a notified listener touches only the
listener registry: the reducer, state and dispatching flag are untouched. -/
theorem applyLAct_fields {S A : Type} (act : LAct) (e : Engine S A) :
    (applyLAct act e).currentState = e.currentState ∧
    (applyLAct act e).currentReducer = e.currentReducer ∧
    (applyLAct act e).isDispatching = e.isDispatching := by
  cases act with
  | sub id =>
    simp only [applyLAct, subscribe, ensureCanMutateNextListeners]
    by_cases h : e.isDispatching <;> by_cases h2 : e.shared <;> simp [h, h2]
  | unsub id =>
    simp only [applyLAct, unsubscribe, ensureCanMutateNextListeners]
    by_cases h : e.isDispatching <;> by_cases h2 : e.shared <;> simp [h, h2]

/-- A listener callback's whole action sequence touches only the listener
registry. -/
theorem applyLActs_fields {S A : Type} (acts : List LAct) (e : Engine S A) :
    (applyLActs acts e).currentState = e.currentState ∧
    (applyLActs acts e).currentReducer = e.currentReducer ∧
    (applyLActs acts e).isDispatching = e.isDispatching := by
  induction acts generalizing e with
  | nil => simp [applyLActs]
  | cons a rest ih =>
    have h1 := applyLAct_fields a e
    have h2 := ih (applyLAct a e)
    simp only [applyLActs, List.foldl_cons] at h2 ⊢
    exact ⟨h2.1.trans h1.1, h2.2.1.trans h1.2.1, h2.2.2.trans h1.2.2⟩

/-- The notification pass touches only the listener registry. -/
theorem notify_fields {S A : Type} (β : Nat → List LAct) (ids : List Nat)
    (e : Engine S A) :
    (notify β ids e).1.currentState = e.currentState ∧
    (notify β ids e).1.currentReducer = e.currentReducer ∧
    (notify β ids e).1.isDispatching = e.isDispatching := by
  induction ids generalizing e with
  | nil => simp [notify]
  | cons i rest ih =>
    have h1 := applyLActs_fields (β i) e
    have h2 := ih (applyLActs (β i) e)
    simp only [notify] at h2 ⊢
    exact ⟨h2.1.trans h1.1, h2.2.1.trans h1.2.1, h2.2.2.trans h1.2.2⟩

/-- The notification loop invokes exactly the snapshot it is given, in order,
no matter what the listener callbacks do. -/
theorem notify_invoked {S A : Type} (β : Nat → List LAct) (ids : List Nat)
    (e : Engine S A) : (notify β ids e).2 = ids := by
  induction ids generalizing e with
  | nil => simp [notify]
  | cons i rest ih => simp [notify, ih]

/-- Outside of a dispatch, one subscription action transforms the staging
list by its pure effect `applyActL`. -/
theorem applyLAct_nextListeners {S A : Type} (act : LAct) (e : Engine S A)
    (h : e.isDispatching = false) :
    (applyLAct act e).nextListeners = applyActL act e.nextListeners := by
  cases act with
  | sub id =>
    simp only [applyLAct, subscribe, ensureCanMutateNextListeners, applyActL]
    by_cases h2 : e.shared <;> simp [h, h2]
  | unsub id =>
    simp only [applyLAct, unsubscribe, ensureCanMutateNextListeners, applyActL]
    by_cases h2 : e.shared <;> simp [h, h2]

/-- Outside of a dispatch, a listener callback transforms the staging list by
its pure effect `applyActsL`. -/
theorem applyLActs_nextListeners {S A : Type} (acts : List LAct) (e : Engine S A)
    (h : e.isDispatching = false) :
    (applyLActs acts e).nextListeners = applyActsL acts e.nextListeners := by
  induction acts generalizing e with
  | nil => simp [applyLActs, applyActsL]
  | cons a rest ih =>
    have hd : (applyLAct a e).isDispatching = false :=
      (applyLAct_fields a e).2.2.trans h
    simp only [applyLActs, applyActsL, List.foldl_cons] at ih ⊢
    rw [ih (applyLAct a e) hd, applyLAct_nextListeners a e h]

/-- Outside of a dispatch, the notification pass transforms the staging list
by the composite pure effect `notifyEffect`. -/
theorem notify_nextListeners {S A : Type} (β : Nat → List LAct) (ids : List Nat)
    (e : Engine S A) (h : e.isDispatching = false) :
    (notify β ids e).1.nextListeners = notifyEffect β ids e.nextListeners := by
  induction ids generalizing e with
  | nil => simp [notify, notifyEffect]
  | cons i rest ih =>
    have hd : (applyLActs (β i) e).isDispatching = false :=
      (applyLActs_fields (β i) e).2.2.trans h
    simp only [notify, notifyEffect, List.foldl_cons] at ih ⊢
    rw [ih (applyLActs (β i) e) hd, applyLActs_nextListeners (β i) e h]

/-- Shape of a successful dispatch: when the store is not mid-dispatch and
the reducer returns `s1` on a plain, typed action, `dispatch` returns the
action, notifies the start-of-call snapshot and leaves the engine as the
notification pass left it. -/
theorem dispatch_ok {S A : Type} (β : Nat → List LAct) (e : Engine S A)
    (ty : String) (p : Option A) (s1 : Option S)
    (hd : e.isDispatching = false)
    (hR : e.currentReducer e.currentState (.obj (some ty) p) = .ok s1) :
    dispatch β e (.obj (some ty) p) =
      ⟨.ok (.obj (some ty) p),
       (notify β e.nextListeners
         { e with currentState := s1, isDispatching := false,
                  currentListeners := some e.nextListeners, shared := true }).1,
       e.nextListeners⟩ := by
  simp only [dispatch, hd, Bool.false_eq_true, if_false, hR]
  have := notify_invoked β e.nextListeners
    { e with currentState := s1, isDispatching := false,
             currentListeners := some e.nextListeners, shared := true }
  simp [this]

/-- Claim C1: for every state `s` and every plain action `a` with a defined
`type` field, dispatching `a` on a store whose state is `s` and whose reducer
is `R` leaves the store's state equal to `R(s, a)` — a subsequent `getState`
returns exactly that value (value equality renders the source's reference
equality, so the `R s a = s` case is covered) — and `dispatch` returns the
action `a` itself. -/
theorem c1_dispatch_purity_forwarding {S A : Type} (β : Nat → List LAct)
    (R : Option S → JSAction A → Option S) (e : Engine S A)
    (ty : String) (p : Option A)
    (hd : e.isDispatching = false)
    (hR : e.currentReducer = pureReducer R) :
    (dispatch β e (.obj (some ty) p)).result = .ok (.obj (some ty) p) ∧
    getState (dispatch β e (.obj (some ty) p)).engine =
      .ok (R e.currentState (.obj (some ty) p)) := by
  have hred : e.currentReducer e.currentState (.obj (some ty) p) =
      .ok (R e.currentState (.obj (some ty) p)) := by
    rw [hR]; rfl
  rw [dispatch_ok β e ty p _ hd hred]
  refine ⟨rfl, ?_⟩
  set e1 : Engine S A :=
    { e with currentState := R e.currentState (.obj (some ty) p),
             isDispatching := false,
             currentListeners := some e.nextListeners, shared := true } with he1
  have hf := notify_fields β e.nextListeners e1
  simp only [getState, hf.2.2, he1, Bool.false_eq_true, if_false, hf.1]

/-- Witness for C1 at a concrete store: state `some 4`, reducer returning
`some 9`, action `{ type: "t" }`. -/
theorem c1_dispatch_purity_forwarding_witness :
    ((mkEngine (fun _ _ => some 9) (some 4) []).isDispatching = false ∧
     (mkEngine (fun _ _ => some 9) (some 4) []).currentReducer =
       pureReducer (fun _ _ => some 9)) ∧
    ((dispatch noBeta (mkEngine (fun _ _ => some 9) (some 4) [])
        (.obj (some "t") none)).result = .ok (.obj (some "t") none) ∧
     getState (dispatch noBeta (mkEngine (fun _ _ => some 9) (some 4) [])
        (.obj (some "t") none)).engine =
       .ok ((fun _ _ => some 9 : Option Nat → JSAction Nat → Option Nat)
         (mkEngine (fun _ _ => some 9) (some 4) []).currentState
         (.obj (some "t") none))) :=
  ⟨⟨rfl, rfl⟩,
   c1_dispatch_purity_forwarding noBeta (fun _ _ => some 9)
     (mkEngine (fun _ _ => some 9) (some 4) []) "t" none rfl rfl⟩

/-- Claim C2: the set and order of listeners a dispatch invokes is the
snapshot taken when the dispatch began (`e.nextListeners`), for every
behaviour environment `β` — so a listener subscribing a new listener B or
unsubscribing another listener C while being notified does not change which
listeners the current dispatch invokes; afterwards the staging list is the
snapshot transformed by exactly those subscribe (append) and unsubscribe
(remove) calls (`notifyEffect`, so it contains B and no longer contains C),
and the next dispatch invokes precisely that updated list. -/
theorem c2_listener_snapshot_isolation {S A : Type} (β β2 : Nat → List LAct)
    (R : Option S → JSAction A → Option S) (e : Engine S A)
    (ty ty2 : String) (p p2 : Option A)
    (hd : e.isDispatching = false)
    (hR : e.currentReducer = pureReducer R) :
    (dispatch β e (.obj (some ty) p)).invoked = e.nextListeners ∧
    (dispatch β e (.obj (some ty) p)).engine.nextListeners =
      notifyEffect β e.nextListeners e.nextListeners ∧
    (dispatch β2 (dispatch β e (.obj (some ty) p)).engine
        (.obj (some ty2) p2)).invoked =
      notifyEffect β e.nextListeners e.nextListeners := by
  have hred : e.currentReducer e.currentState (.obj (some ty) p) =
      .ok (R e.currentState (.obj (some ty) p)) := by
    rw [hR]; rfl
  rw [dispatch_ok β e ty p _ hd hred]
  set e1 : Engine S A :=
    { e with currentState := R e.currentState (.obj (some ty) p),
             isDispatching := false,
             currentListeners := some e.nextListeners, shared := true } with he1
  have hnl : (notify β e.nextListeners e1).1.nextListeners =
      notifyEffect β e.nextListeners e.nextListeners := by
    have := notify_nextListeners β e.nextListeners e1 (by simp [he1])
    simpa [he1] using this
  refine ⟨rfl, hnl, ?_⟩
  set e2 := (notify β e.nextListeners e1).1 with he2
  have hd2 : e2.isDispatching = false := by
    have := (notify_fields β e.nextListeners e1).2.2
    simp only [he2, this, he1]
  have hR2 : e2.currentReducer = pureReducer R := by
    rw [he2, (notify_fields β e.nextListeners e1).2.1]
    exact hR
  have hred2 : e2.currentReducer e2.currentState (.obj (some ty2) p2) =
      .ok (R e2.currentState (.obj (some ty2) p2)) := by
    rw [hR2]; rfl
  rw [dispatch_ok β2 e2 ty2 p2 _ hd2 hred2, hnl]

/-- Witness for C2: listeners `[0, 1, 2]`; while being notified, listener 0
subscribes the new listener 5 and listener 1 unsubscribes listener 2.  The
first dispatch still invokes `[0, 1, 2]`; the staging list afterwards is
`[0, 1, 5]` (5 added, 2 removed) and the next dispatch invokes exactly
`[0, 1, 5]`. -/
theorem c2_listener_snapshot_isolation_witness :
    ((mkEngine (fun s _ => s) (some 0) [0, 1, 2]).isDispatching = false ∧
     (mkEngine (fun s _ => s) (some 0) [0, 1, 2]).currentReducer =
       pureReducer (fun s _ => s)) ∧
    ((dispatch snapshotBeta (mkEngine (fun s _ => s) (some 0) [0, 1, 2])
        (.obj (some "t") none)).invoked = [0, 1, 2] ∧
     (dispatch snapshotBeta (mkEngine (fun s _ => s) (some 0) [0, 1, 2])
        (.obj (some "t") none)).engine.nextListeners = [0, 1, 5] ∧
     (dispatch noBeta (dispatch snapshotBeta
         (mkEngine (fun s _ => s) (some 0) [0, 1, 2])
         (.obj (some "t") none)).engine
        (.obj (some "u") none)).invoked = [0, 1, 5]) := by
  have h := c2_listener_snapshot_isolation snapshotBeta noBeta (fun s _ => s)
    (mkEngine (fun s _ => s) (some 0) [0, 1, 2]) "t" "u" none none rfl rfl
  have heff : notifyEffect snapshotBeta [0, 1, 2] [0, 1, 2] = [0, 1, 5] := by decide
  refine ⟨⟨rfl, rfl⟩, h.1, ?_, ?_⟩
  · exact h.2.1.trans (by exact heff)
  · exact h.2.2.trans (by exact heff)

/-- Claim C10: every successful dispatch invokes every listener in the
start-of-dispatch snapshot unconditionally — in particular when the reducer
returns the previous state unchanged — and the engine performs no change
detection before notifying. -/
theorem c10_unconditional_notification {S A : Type} (β : Nat → List LAct)
    (R : Option S → JSAction A → Option S) (e : Engine S A)
    (ty : String) (p : Option A)
    (hd : e.isDispatching = false)
    (hR : e.currentReducer = pureReducer R)
    (hsame : R e.currentState (.obj (some ty) p) = e.currentState) :
    (dispatch β e (.obj (some ty) p)).invoked = e.nextListeners ∧
    (dispatch β e (.obj (some ty) p)).engine.currentState = e.currentState ∧
    (dispatch β e (.obj (some ty) p)).result = .ok (.obj (some ty) p) := by
  have hred : e.currentReducer e.currentState (.obj (some ty) p) =
      .ok (R e.currentState (.obj (some ty) p)) := by
    rw [hR]; rfl
  rw [dispatch_ok β e ty p _ hd hred]
  set e1 : Engine S A :=
    { e with currentState := R e.currentState (.obj (some ty) p),
             isDispatching := false,
             currentListeners := some e.nextListeners, shared := true } with he1
  have hf := (notify_fields β e.nextListeners e1).1
  refine ⟨rfl, ?_, rfl⟩
  rw [hf]
  exact hsame

/-- Witness for C10: a reducer returning its input state unchanged on a store
with listeners `[3, 7]`; dispatch still invokes both listeners, keeps the
state at `some 2` and echoes the action. -/
theorem c10_unconditional_notification_witness :
    ((mkEngine (fun s _ => s) (some 2) [3, 7]).isDispatching = false ∧
     (mkEngine (fun s _ => s) (some 2) [3, 7]).currentReducer =
       pureReducer (fun s _ => s) ∧
     (fun s _ => s : Option Nat → JSAction Nat → Option Nat)
       (mkEngine (fun s _ => s) (some 2) [3, 7]).currentState
       (.obj (some "t") none) =
       (mkEngine (fun s _ => s) (some 2) [3, 7]).currentState) ∧
    ((dispatch noBeta (mkEngine (fun s _ => s) (some 2) [3, 7])
        (.obj (some "t") none)).invoked = [3, 7] ∧
     (dispatch noBeta (mkEngine (fun s _ => s) (some 2) [3, 7])
        (.obj (some "t") none)).engine.currentState = some 2 ∧
     (dispatch noBeta (mkEngine (fun s _ => s) (some 2) [3, 7])
        (.obj (some "t") none)).result = .ok (.obj (some "t") none)) := by
  have h := c10_unconditional_notification noBeta (fun s _ => s)
    (mkEngine (fun s _ => s) (some 2) [3, 7]) "t" none rfl rfl rfl
  exact ⟨⟨rfl, rfl, rfl⟩, h.1, h.2.1, h.2.2⟩

/-- Rewriting the dispatching flag to the value it already has is the
identity on the engine record. -/
theorem engine_eta_false {S A : Type} (e : Engine S A)
    (hd : e.isDispatching = false) :
    { e with isDispatching := false } = e := by
  cases e
  simp_all

/-- Claim C3: if the reducer throws during a dispatch of a valid action, the
exception propagates out of `dispatch` to its caller, the state afterwards
equals its pre-dispatch value (the engine is exactly as before, the
`finally` block having reset the reentrancy flag), no listener is notified
by that dispatch, and a subsequent dispatch on the same store (of an action
the reducer handles) succeeds normally. -/
theorem c3_reducer_throw_propagates {S A : Type} (β β2 : Nat → List LAct)
    (e : Engine S A) (ty ty2 : String) (p p2 : Option A)
    (err : RError) (s2 : Option S)
    (hd : e.isDispatching = false)
    (hthrow : e.currentReducer e.currentState (.obj (some ty) p) = .error err)
    (hok : e.currentReducer e.currentState (.obj (some ty2) p2) = .ok s2) :
    dispatch β e (.obj (some ty) p) = ⟨.error err, e, []⟩ ∧
    (dispatch β2 e (.obj (some ty2) p2)).result = .ok (.obj (some ty2) p2) := by
  constructor
  · simp only [dispatch, hd, Bool.false_eq_true, if_false, hthrow]
    rw [engine_eta_false e hd]
  · rw [dispatch_ok β2 e ty2 p2 s2 hd hok]

/-- Witness fixture: a store whose reducer throws on action type "boom" and
no-ops otherwise. -/
theorem c3_reducer_throw_propagates_witness :
    ((throwEngine.isDispatching = false ∧
      throwEngine.currentReducer throwEngine.currentState
        (.obj (some "boom") none) = .error (.userError "reducer threw") ∧
      throwEngine.currentReducer throwEngine.currentState
        (.obj (some "ok") none) = .ok (some 1)) ∧
     (dispatch noBeta throwEngine (.obj (some "boom") none) =
        ⟨.error (.userError "reducer threw"), throwEngine, []⟩ ∧
      (dispatch noBeta throwEngine (.obj (some "ok") none)).result =
        .ok (.obj (some "ok") none))) :=
  ⟨⟨rfl, rfl, rfl⟩,
   c3_reducer_throw_propagates noBeta noBeta throwEngine "boom" "ok" none none
     (.userError "reducer threw") (some 1) rfl rfl rfl⟩

/-- Claim C4: a dispatch issued while a dispatch is already in progress on
the same store — the cells a running reducer observes have
`isDispatching = true` — fails with `ReentrantDispatch` before invoking the
reducer (the outcome is the same for every installed reducer `R2`) and
before changing any state (the cells are returned untouched, no listener
invoked); and for a reducer that performs such an inner dispatch and
rethrows its exception (`innerDispatchReducer`), the error propagates out of
the outer dispatch to its caller, which also leaves the outer store's cells
unchanged. -/
theorem c4_reentrant_dispatch_rejected {S A : Type} (β β2 : Nat → List LAct)
    (e : Engine S A) (ty ty2 : String) (p p2 : Option A)
    (hd : e.isDispatching = false) :
    (∀ R2 : Reducer S A,
      dispatch β2 { e with isDispatching := true, currentReducer := R2 }
          (.obj (some ty2) p2) =
        ⟨.error .reentrantDispatch,
         { e with isDispatching := true, currentReducer := R2 }, []⟩) ∧
    (dispatch β
        { e with currentReducer := innerDispatchReducer β2 e (.obj (some ty2) p2) }
        (.obj (some ty) p)).result = .error .reentrantDispatch ∧
    (dispatch β
        { e with currentReducer := innerDispatchReducer β2 e (.obj (some ty2) p2) }
        (.obj (some ty) p)).engine =
      { e with currentReducer := innerDispatchReducer β2 e (.obj (some ty2) p2) } := by
  refine ⟨fun R2 => rfl, ?_, ?_⟩
  · simp [dispatch, hd, innerDispatchReducer]
  · simp [dispatch, hd, innerDispatchReducer]

/-- Witness for C4 at a concrete store with state `some 0`. -/
theorem c4_reentrant_dispatch_rejected_witness :
    (c4Base.isDispatching = false) ∧
    (dispatch noBeta c4During (.obj (some "inner") none) =
      ⟨.error .reentrantDispatch, c4During, []⟩) ∧
    ((dispatch noBeta c4Outer (.obj (some "outer") none)).result =
      .error .reentrantDispatch) := by
  have h := c4_reentrant_dispatch_rejected noBeta noBeta c4Base
    "outer" "inner" none none rfl
  exact ⟨rfl, h.1 (pureReducer (fun s _ => s)), h.2.1⟩

/-- Claim C5: with interceptors `[m1, m2]` the dispatch built by the
middleware enhancer is `m1`'s wrapper applied to `m2`'s wrapper applied to
the base dispatch — right-to-left composition, so an outer dispatch enters
`m1`'s wrapper first, then `m2`'s, then the base dispatch; instrumented
wrappers that record their stage and forward show each stage is visited
exactly once per outer dispatch, in that order. -/
theorem c5_middleware_ordering {Api D : Type} (api : Api)
    (m1 m2 : Api → D → D) (base : D) :
    applyMiddlewareDispatch api [m1, m2] base = m1 api (m2 api base) ∧
    (∀ (Api2 A : Type) (api2 : Api2) (a : A),
      applyMiddlewareDispatch api2
        [traceMiddleware "m1", traceMiddleware "m2"] traceBase a =
        ["m1", "m2", "base"]) :=
  ⟨rfl, fun _ _ _ _ => rfl⟩

/-- Claim C6: whenever `createStore` receives an enhancer — including a
callable passed in the `preloadedState` slot with no third argument, which
is sniffed into the enhancer position with `preloadedState` becoming
absent — it returns exactly `enhancer(createStore)(reducer, preloadedState)`.
The first two conjuncts hold for every reducer argument, callable or not, so
the outer call performs no reducer-callability check and no initialization
dispatch of its own; the third conjunct shows the constructor handed to the
enhancer (the two-argument restriction of `createStore`) is exactly
`createStoreBase`, the base path with its own validation and initialization
dispatch. -/
theorem c6_enhancer_delegation {S A : Type} (enh : Enhancer S A)
    (r : JSArg (Reducer S A)) (p : Option S) :
    createStore r (ofOptionPre p) (.fn enh) false =
      enh (fun r2 p2 => createStoreBase r2 p2) r p ∧
    createStore r (.preFn enh) .undef false =
      enh (fun r2 p2 => createStoreBase r2 p2) r none ∧
    (∀ (r2 : JSArg (Reducer S A)) (p2 : Option S),
      createStore r2 (ofOptionPre p2) .undef false = createStoreBase r2 p2) := by
  refine ⟨?_, rfl, ?_⟩
  · cases p <;> rfl
  · intro r2 p2
    cases p2 <;> rfl

/-- Claim C7: after `replaceReducer(R2)` on a store whose prior state is
`priorState`, the dispatch of the synthetic `{ type: REPLACE }` action has
run through `R2`, so `getState()` equals `R2(priorState, { type: REPLACE })`;
the installed reducer is now `R2` and every subsequent dispatch runs `R2`
(the next state is `R2` applied to the post-replace state), never the
previously installed reducer. -/
theorem c7_replaceReducer_continuity {S A : Type} (β β2 : Nat → List LAct)
    (e : Engine S A) (R2 : Option S → JSAction A → Option S)
    (ty : String) (p : Option A)
    (hd : e.isDispatching = false) :
    (replaceReducer β e (.fn (pureReducer R2))).1 = .ok () ∧
    getState (replaceReducer β e (.fn (pureReducer R2))).2.1 =
      .ok (R2 e.currentState (replaceAction A)) ∧
    (replaceReducer β e (.fn (pureReducer R2))).2.1.currentReducer =
      pureReducer R2 ∧
    (dispatch β2 (replaceReducer β e (.fn (pureReducer R2))).2.1
        (.obj (some ty) p)).engine.currentState =
      R2 (R2 e.currentState (replaceAction A)) (.obj (some ty) p) := by
  have hd1 : ({ e with currentReducer := pureReducer R2 } : Engine S A).isDispatching
      = false := hd
  have hred : ({ e with currentReducer := pureReducer R2 } : Engine S A).currentReducer
      ({ e with currentReducer := pureReducer R2 } : Engine S A).currentState
      (.obj (some ActionTypes.REPLACE) none) =
      .ok (R2 e.currentState (.obj (some ActionTypes.REPLACE) none)) := rfl
  simp only [replaceReducer, replaceAction]
  rw [dispatch_ok β _ ActionTypes.REPLACE none _ hd1 hred]
  set e1 : Engine S A :=
    { e with currentReducer := pureReducer R2,
             currentState := R2 e.currentState (.obj (some ActionTypes.REPLACE) none),
             currentListeners := some e.nextListeners, shared := true,
             isDispatching := false } with he1
  set e2 := (notify β e.nextListeners e1).1 with he2
  have hf := notify_fields β e.nextListeners e1
  have hd2 : e2.isDispatching = false := by rw [he2, hf.2.2]
  have hR2 : e2.currentReducer = pureReducer R2 := by rw [he2, hf.2.1]
  have hs2 : e2.currentState = R2 e.currentState (.obj (some ActionTypes.REPLACE) none) := by
    rw [he2, hf.1]
  refine ⟨rfl, ?_, hR2, ?_⟩
  · simp only [getState, hd2, Bool.false_eq_true, if_false, hs2]
  · have hred2 : e2.currentReducer e2.currentState (.obj (some ty) p) =
        .ok (R2 e2.currentState (.obj (some ty) p)) := by rw [hR2]; rfl
    rw [dispatch_ok β2 e2 ty p _ hd2 hred2]
    set e3 : Engine S A :=
      { e2 with currentState := R2 e2.currentState (.obj (some ty) p),
                isDispatching := false,
                currentListeners := some e2.nextListeners, shared := true } with he3
    have hf3 := (notify_fields β2 e2.nextListeners e3).1
    rw [hf3, he3]
    simp only [hs2]

/-- Witness for C7: prior state `some 3`, replacement reducer returning
`some 7`; a follow-up dispatch of `{ type: "t" }` also runs the new
reducer. -/
theorem c7_replaceReducer_continuity_witness :
    ((mkEngine (fun s _ => s) (some 3) []).isDispatching = false) ∧
    ((replaceReducer noBeta (mkEngine (fun s _ => s) (some 3) [])
        (.fn (pureReducer (fun _ _ => some 7)))).1 = .ok () ∧
     getState (replaceReducer noBeta (mkEngine (fun s _ => s) (some 3) [])
        (.fn (pureReducer (fun _ _ => some 7)))).2.1 = .ok (some 7) ∧
     (dispatch noBeta (replaceReducer noBeta (mkEngine (fun s _ => s) (some 3) [])
        (.fn (pureReducer (fun _ _ => some 7)))).2.1
        (.obj (some "t") none)).engine.currentState = some 7) := by
  have h := c7_replaceReducer_continuity noBeta noBeta
    (mkEngine (fun s _ => s) (some 3) []) (fun _ _ => some 7) "t" none rfl
  exact ⟨rfl, h.1, h.2.1, h.2.2.2⟩

/-- Claim C8: while a dispatch is in progress, `subscribe` fails with
`ReentrantSubscribe` — throwing before the push, so the listener is not
registered — and a first invocation of an unsubscribe closure fails with
`ReentrantUnsubscribe` before any removal. -/
theorem c8_reentrant_subscription_rejected {S A : Type} (e : Engine S A)
    (id id2 : Nat) (hd : e.isDispatching = true) :
    subscribe id e = .error .reentrantSubscribe ∧
    unsubscribe true id2 e = .error .reentrantUnsubscribe := by
  constructor
  · simp [subscribe, hd]
  · simp [unsubscribe, hd]

/-- Witness for C8: a store observed mid-dispatch rejects both subscription
operations. -/
theorem c8_reentrant_subscription_rejected_witness :
    (dispatchingEngine.isDispatching = true) ∧
    (subscribe 9 dispatchingEngine = .error .reentrantSubscribe ∧
     unsubscribe true 8 dispatchingEngine = .error .reentrantUnsubscribe) :=
  ⟨rfl, c8_reentrant_subscription_rejected dispatchingEngine 9 8 rfl⟩

/-- Claim C9: constructing a store from a reducer with no preloaded state and
no enhancer dispatches one synthetic `{ type: INIT }` action before
returning, so `getState()` on the fresh store equals
`R(uninitializedSentinel, { type: INIT })` (the sentinel is the absent,
`undefined` state). -/
theorem c9_initialization {S A : Type}
    (R : Option S → JSAction A → Option S) :
    createStoreBase (.fn (pureReducer R)) none = .ok (initEngine R) ∧
    getState (initEngine R) = .ok (R none (initAction A)) ∧
    (initEngine R).currentState = R none (initAction A) :=
  ⟨rfl, rfl, rfl⟩

end Redux
